import Mathlib

/-!
Verification of the network_monitor core pipeline against its specification.

The Python modules `core/aggregator.py`, `core/rate_calculator.py`,
`core/connection_tracker.py` and `core/network_sampler.py` are shallowly
embedded below.  Python dicts are modelled as insertion-ordered association
lists (`dictLookup`, `dictSet`, `dictErase`), `datetime` instants as integers
(rationals where division by elapsed time is needed), Python ints as `Int`,
and `sorted(..., key=k, reverse=True)` as a stable insertion sort
(`sortByDesc`).  Each `datetime.now()` call inside one method invocation is
modelled as a single `now` parameter of that invocation.
-/

/-- Lookup in an insertion-ordered association list (Python `d[k]` / `k in d`). -/
def dictLookup {K V : Type} [DecidableEq K] : List (K × V) → K → Option V
  | [], _ => none
  | (k, v) :: rest, key => if k = key then some v else dictLookup rest key

/-- Update-or-append for an insertion-ordered association list (Python `d[k] = v`:
an existing key keeps its position, a new key is appended at the end). -/
def dictSet {K V : Type} [DecidableEq K] : List (K × V) → K → V → List (K × V)
  | [], key, v => [(key, v)]
  | (k, w) :: rest, key, v =>
    if k = key then (k, v) :: rest else (k, w) :: dictSet rest key v

/-- Removal of a key (Python `del d[k]`). -/
def dictErase {K V : Type} [DecidableEq K] : List (K × V) → K → List (K × V)
  | [], _ => []
  | (k, w) :: rest, key => if k = key then rest else (k, w) :: dictErase rest key

theorem dictLookup_dictSet_self {K V : Type} [DecidableEq K]
    (l : List (K × V)) (k : K) (v : V) : dictLookup (dictSet l k v) k = some v := by
  induction l with
  | nil => simp [dictSet, dictLookup]
  | cons hd tl ih =>
    obtain ⟨k', w⟩ := hd
    by_cases h : k' = k
    · simp [dictSet, dictLookup, h]
    · simp [dictSet, dictLookup, h, ih]

theorem dictLookup_dictSet_ne {K V : Type} [DecidableEq K]
    (l : List (K × V)) (k k' : K) (v : V) (hne : k' ≠ k) :
    dictLookup (dictSet l k v) k' = dictLookup l k' := by
  induction l with
  | nil => simp [dictSet, dictLookup, Ne.symm hne]
  | cons hd tl ih =>
    obtain ⟨k₀, w⟩ := hd
    by_cases h : k₀ = k
    · subst h
      simp [dictSet, dictLookup, Ne.symm hne]
    · simp [dictSet, dictLookup, h, ih]

/-- Protocol enumeration from `models/data_models.py`. -/
inductive Protocol : Type
  | TCP
  | UDP
  | ICMP
  | OTHER
deriving DecidableEq

/-- String value of a `Protocol` member (the enum inherits from `str`). -/
def protocol_value : Protocol → String
  | .TCP => "TCP"
  | .UDP => "UDP"
  | .ICMP => "ICMP"
  | .OTHER => "OTHER"

/-- A single network flow (5-tuple) with counters, from `models/data_models.py`.
Times are modelled as integers. -/
structure FlowStat : Type where
  protocol : Protocol
  local_ip : String
  local_port : Nat
  remote_ip : String
  remote_port : Nat
  bytes_up : Int
  bytes_down : Int
  packets_up : Int
  packets_down : Int
  start_time : Int
  last_seen : Int
  process_name : Option String
  process_pid : Option Nat
deriving DecidableEq

/-- Aggregated statistics for a remote host, from `models/data_models.py`. -/
structure HostStat : Type where
  ip : String
  hostname : Option String
  total_bytes_up : Int
  total_bytes_down : Int
  packets_up : Int
  packets_down : Int
  last_seen : Int
  flow_count : Nat
deriving DecidableEq

/-- Combined bytes of a host (`HostStat.total_bytes`). -/
def host_total_bytes (h : HostStat) : Int := h.total_bytes_up + h.total_bytes_down

/-- The flow table key used by the Aggregator: `(protocol, local_ip, local_port,
remote_ip, remote_port)`. -/
abbrev FlowKey : Type := Protocol × String × Nat × String × Nat

/-- The 5-tuple key built in `update_flow`. -/
def connection_key (f : FlowStat) : FlowKey :=
  (f.protocol, f.local_ip, f.local_port, f.remote_ip, f.remote_port)

/-- `HostStat(ip=ip)`: the fresh host record created when an IP is first seen;
its `last_seen` default factory is `datetime.now()`, i.e. the current instant. -/
def mkHostStat (ip : String) (now : Int) : HostStat :=
  { ip := ip, hostname := none, total_bytes_up := 0, total_bytes_down := 0,
    packets_up := 0, packets_down := 0, last_seen := now, flow_count := 0 }

/-- State of `core/aggregator.py`'s `Aggregator`: the flow table and host table. -/
structure Aggregator : Type where
  flows : List (FlowKey × FlowStat)
  hosts : List (String × HostStat)
deriving DecidableEq

namespace Aggregator

/-- `Aggregator.__init__`: both tables start empty. -/
def init : Aggregator := { flows := [], hosts := [] }

/-- `Aggregator._update_host`: create the host record if absent, add the byte
and packet deltas onto its totals, stamp `last_seen` with the current time and
recount the flows whose `remote_ip` matches.  The Python
"insert default then mutate in place" is the same as lookup-with-default
followed by `dictSet`. -/
def update_host (now : Int) (flowsNew : List (FlowKey × FlowStat))
    (hosts : List (String × HostStat)) (ip : String)
    (bytes_up bytes_down packets_up packets_down : Int) :
    List (String × HostStat) :=
  let host := (dictLookup hosts ip).getD (mkHostStat ip now)
  dictSet hosts ip
    { host with
      total_bytes_up := host.total_bytes_up + bytes_up,
      total_bytes_down := host.total_bytes_down + bytes_down,
      packets_up := host.packets_up + packets_up,
      packets_down := host.packets_down + packets_down,
      last_seen := now,
      flow_count := ((flowsNew.map Prod.snd).filter (fun f => f.remote_ip == ip)).length }

/-- `Aggregator.update_flow`: merge counters into an existing entry (stamping
its `last_seen` with the current time) or insert the incoming flow verbatim,
then roll the deltas into the host table. -/
def update_flow (now : Int) (flow : FlowStat) (a : Aggregator) : Aggregator :=
  let key := connection_key flow
  let flowsNew :=
    match dictLookup a.flows key with
    | some existing =>
      dictSet a.flows key
        { existing with
          bytes_up := existing.bytes_up + flow.bytes_up,
          bytes_down := existing.bytes_down + flow.bytes_down,
          packets_up := existing.packets_up + flow.packets_up,
          packets_down := existing.packets_down + flow.packets_down,
          last_seen := now }
    | none => dictSet a.flows key flow
  { flows := flowsNew,
    hosts := update_host now flowsNew a.hosts flow.remote_ip
      flow.bytes_up flow.bytes_down flow.packets_up flow.packets_down }

/-- `Aggregator.get_active_flows`: flows whose `last_seen` is after the cutoff. -/
def get_active_flows (now timeout_sec : Int) (a : Aggregator) : List FlowStat :=
  (a.flows.map Prod.snd).filter (fun f => now - timeout_sec < f.last_seen)

/-- The active-host filter of `get_top_hosts` (line `active_hosts = [...]`). -/
def active_hosts (now timeout_sec : Int) (a : Aggregator) : List HostStat :=
  (a.hosts.map Prod.snd).filter (fun h => now - timeout_sec < h.last_seen)

/-- `Aggregator.get_flow_by_remote`: all flows to/from a given remote IP. -/
def get_flow_by_remote (ip : String) (a : Aggregator) : List FlowStat :=
  (a.flows.map Prod.snd).filter (fun f => f.remote_ip == ip)

/-- `Aggregator.cleanup_old_flows`: delete every flow whose `last_seen` is
strictly before `now - timeout_sec` (the remaining entries keep their order). -/
def cleanup_old_flows (now timeout_sec : Int) (a : Aggregator) : Aggregator :=
  { a with flows := a.flows.filter (fun kf => ¬ kf.2.last_seen < now - timeout_sec) }

/-- `Aggregator.cleanup_old_hosts`: same expiry rule for the host table. -/
def cleanup_old_hosts (now timeout_sec : Int) (a : Aggregator) : Aggregator :=
  { a with hosts := a.hosts.filter (fun kh => ¬ kh.2.last_seen < now - timeout_sec) }

/-- `Aggregator.clear`: empty both tables. -/
def clear (_ : Aggregator) : Aggregator := { flows := [], hosts := [] }

end Aggregator

/-! ### Claim C1: update_flow merge semantics -/

/-- First C1 example flow: bytes_up 100 on a fixed 5-tuple. -/
def c1_flow1 : FlowStat :=
  { protocol := .TCP, local_ip := "192.168.0.2", local_port := 5000,
    remote_ip := "10.0.0.5", remote_port := 443,
    bytes_up := 100, bytes_down := 10, packets_up := 3, packets_down := 2,
    start_time := 10, last_seen := 10, process_name := none, process_pid := none }

/-- Second C1 example flow: same 5-tuple, bytes_up 50, its own last_seen 99. -/
def c1_flow2 : FlowStat :=
  { c1_flow1 with bytes_up := 50, start_time := 99, last_seen := 99 }

/-- C1: when the incoming flow's 5-tuple key is already present, `update_flow`
adds the incoming byte and packet counts onto the existing entry and stamps the
entry's `last_seen` with the current time of the call (not the incoming flow's
`last_seen`); when the key is absent the incoming flow is inserted verbatim.
In particular two updates on one key with bytes_up 100 then 50 (second call at
time 20) leave bytes_up 150 and last_seen 20. -/
theorem update_flow_merge :
    (∀ (now : Int) (flow : FlowStat) (a : Aggregator),
      dictLookup (Aggregator.update_flow now flow a).flows (connection_key flow) =
        some (match dictLookup a.flows (connection_key flow) with
              | some existing =>
                { existing with
                  bytes_up := existing.bytes_up + flow.bytes_up,
                  bytes_down := existing.bytes_down + flow.bytes_down,
                  packets_up := existing.packets_up + flow.packets_up,
                  packets_down := existing.packets_down + flow.packets_down,
                  last_seen := now }
              | none => flow)) ∧
    (dictLookup (Aggregator.update_flow 20 c1_flow2
        (Aggregator.update_flow 10 c1_flow1 Aggregator.init)).flows
        (connection_key c1_flow1)).map (fun f => (f.bytes_up, f.last_seen)) =
      some (150, 20) := by
  constructor
  · intro now flow a
    unfold Aggregator.update_flow
    cases h : dictLookup a.flows (connection_key flow) <;>
      simp [h, dictLookup_dictSet_self]
  · decide

/-! ### Claim C2: update_flow host rollup -/

/-- First C2 example flow: remote 10.0.0.5, bytes_up 100. -/
def c2_flow1 : FlowStat :=
  { protocol := .TCP, local_ip := "192.168.0.2", local_port := 5001,
    remote_ip := "10.0.0.5", remote_port := 443,
    bytes_up := 100, bytes_down := 0, packets_up := 1, packets_down := 0,
    start_time := 10, last_seen := 10, process_name := none, process_pid := none }

/-- Second C2 example flow: a distinct 5-tuple with the same remote IP,
bytes_up 200. -/
def c2_flow2 : FlowStat :=
  { c2_flow1 with local_port := 5002, bytes_up := 200, start_time := 11, last_seen := 11 }

/-- C2: every `update_flow(f)` call leaves the host record for `f.remote_ip`
(created fresh if absent) with f's byte and packet deltas added onto its
cumulative totals, `last_seen` stamped with the current time, and `flow_count`
equal to the number of flow-table entries (after the update) whose remote_ip
matches.  In particular two flows on distinct keys sharing remote 10.0.0.5 with
bytes_up 100 and 200 leave total_bytes_up 300 and flow_count 2. -/
theorem update_flow_host_rollup :
    (∀ (now : Int) (flow : FlowStat) (a : Aggregator),
      dictLookup (Aggregator.update_flow now flow a).hosts flow.remote_ip =
        some (let host := (dictLookup a.hosts flow.remote_ip).getD
                (mkHostStat flow.remote_ip now)
          { host with
            total_bytes_up := host.total_bytes_up + flow.bytes_up,
            total_bytes_down := host.total_bytes_down + flow.bytes_down,
            packets_up := host.packets_up + flow.packets_up,
            packets_down := host.packets_down + flow.packets_down,
            last_seen := now,
            flow_count := (((Aggregator.update_flow now flow a).flows.map Prod.snd).filter
              (fun f => f.remote_ip == flow.remote_ip)).length })) ∧
    (dictLookup (Aggregator.update_flow 11 c2_flow2
        (Aggregator.update_flow 10 c2_flow1 Aggregator.init)).hosts
        "10.0.0.5").map (fun h => (h.total_bytes_up, h.flow_count)) =
      some (300, 2) := by
  constructor
  · intro now flow a
    unfold Aggregator.update_flow Aggregator.update_host
    cases h : dictLookup a.flows (connection_key flow) <;>
      simp [h, dictLookup_dictSet_self]
  · decide

/-! ### Stable descending sort, modelling Python sorted(..., reverse=True) -/

/-- Insert an element into a list sorted descending by `key`, before the first
element whose key is strictly smaller (so it lands after equal keys already
present, matching the stability of Python's sort for an element arriving
earlier in the input). -/
def insertDesc {α : Type} (key : α → Int) (x : α) : List α → List α
  | [] => [x]
  | h :: t => if key x < key h then h :: insertDesc key x t else x :: h :: t

/-- Stable insertion sort, descending by `key` (model of
`sorted(l, key=key, reverse=True)`). -/
def sortByDesc {α : Type} (key : α → Int) : List α → List α
  | [] => []
  | h :: t => insertDesc key h (sortByDesc key t)

theorem insertDesc_perm {α : Type} (key : α → Int) (x : α) (l : List α) :
    (insertDesc key x l).Perm (x :: l) := by
  induction l with
  | nil => simp [insertDesc]
  | cons h t ih =>
    by_cases hc : key x < key h
    · simp only [insertDesc, if_pos hc]
      exact (ih.cons h).trans (List.Perm.swap x h t)
    · simp [insertDesc, if_neg hc]

theorem sortByDesc_perm {α : Type} (key : α → Int) (l : List α) :
    (sortByDesc key l).Perm l := by
  induction l with
  | nil => simp [sortByDesc]
  | cons h t ih =>
    exact (insertDesc_perm key h (sortByDesc key t)).trans (ih.cons h)

theorem mem_insertDesc {α : Type} (key : α → Int) (x y : α) (l : List α) :
    y ∈ insertDesc key x l ↔ y = x ∨ y ∈ l := by
  rw [(insertDesc_perm key x l).mem_iff]
  simp

theorem insertDesc_pairwise {α : Type} (key : α → Int) (x : α) (l : List α)
    (hl : l.Pairwise (fun a b => key b ≤ key a)) :
    (insertDesc key x l).Pairwise (fun a b => key b ≤ key a) := by
  induction l with
  | nil => simp [insertDesc]
  | cons h t ih =>
    rcases List.pairwise_cons.mp hl with ⟨hh, ht⟩
    by_cases hc : key x < key h
    · simp only [insertDesc, if_pos hc]
      refine List.pairwise_cons.mpr ⟨?_, ih ht⟩
      intro y hy
      rcases (mem_insertDesc key x y t).mp hy with rfl | hy
      · exact le_of_lt hc
      · exact hh y hy
    · push_neg at hc
      simp only [insertDesc, if_neg (not_lt.mpr hc)]
      refine List.pairwise_cons.mpr ⟨?_, hl⟩
      intro y hy
      rcases List.mem_cons.mp hy with rfl | hy
      · exact hc
      · exact le_trans (hh y hy) hc

theorem sortByDesc_pairwise {α : Type} (key : α → Int) (l : List α) :
    (sortByDesc key l).Pairwise (fun a b => key b ≤ key a) := by
  induction l with
  | nil => simp [sortByDesc]
  | cons h t ih => exact insertDesc_pairwise key h (sortByDesc key t) ih

namespace Aggregator

/-- `Aggregator.get_top_hosts`: filter the host table to entries active within
`timeout_sec`, sort descending by the selector (combined bytes, upload bytes or
download bytes; any other selector leaves the filtered list unsorted), then
truncate to the first `count` entries. -/
def get_top_hosts (now : Int) (count : Nat) (by_ : String) (timeout_sec : Int)
    (a : Aggregator) : List HostStat :=
  let sorted_hosts :=
    if by_ = "total_bytes" then
      sortByDesc host_total_bytes (active_hosts now timeout_sec a)
    else if by_ = "upload" then
      sortByDesc (fun h => h.total_bytes_up) (active_hosts now timeout_sec a)
    else if by_ = "download" then
      sortByDesc (fun h => h.total_bytes_down) (active_hosts now timeout_sec a)
    else
      active_hosts now timeout_sec a
  sorted_hosts.take count

end Aggregator

/-! ### Claim C4: get_top_hosts with a recognized selector -/

/-- C4 example host with combined bytes 500. -/
def c4_host500 : HostStat :=
  { ip := "h500", hostname := none, total_bytes_up := 300, total_bytes_down := 200,
    packets_up := 0, packets_down := 0, last_seen := 90, flow_count := 1 }

/-- C4 example host with combined bytes 1500. -/
def c4_host1500 : HostStat :=
  { ip := "h1500", hostname := none, total_bytes_up := 1000, total_bytes_down := 500,
    packets_up := 0, packets_down := 0, last_seen := 95, flow_count := 1 }

/-- C4 example host with combined bytes 100. -/
def c4_host100 : HostStat :=
  { ip := "h100", hostname := none, total_bytes_up := 60, total_bytes_down := 40,
    packets_up := 0, packets_down := 0, last_seen := 99, flow_count := 1 }

/-- C4 example aggregator: three active hosts with combined bytes 500, 1500, 100. -/
def c4_agg : Aggregator :=
  { flows := [],
    hosts := [("h500", c4_host500), ("h1500", c4_host1500), ("h100", c4_host100)] }

/-- C4: for each recognized selector (`total_bytes` with combined bytes,
`upload`, `download`), `get_top_hosts` returns only hosts passing the
freshness filter, sorted descending by the selected metric, truncated to
`count` entries, and it returns exactly the top-ranked active hosts: the
active set splits (as a multiset) into the returned list and a remainder in
which every host ranks no higher than every returned host — so in the
truncation regime the result is precisely the first `count` entries of the
descending order (and when at most `count` hosts are active the result is a
permutation of the whole active set).  On three active hosts with combined
bytes 500/1500/100 and count 2 it returns the 1500-byte host then the
500-byte host. -/
theorem get_top_hosts_spec :
    (∀ (a : Aggregator) (now : Int) (count : Nat) (timeout_sec : Int)
      (by_ : String) (key : HostStat → Int),
      (by_ = "total_bytes" ∧ key = host_total_bytes) ∨
        (by_ = "upload" ∧ key = fun h => h.total_bytes_up) ∨
        (by_ = "download" ∧ key = fun h => h.total_bytes_down) →
      (∀ h ∈ Aggregator.get_top_hosts now count by_ timeout_sec a,
          h ∈ Aggregator.active_hosts now timeout_sec a) ∧
      (Aggregator.get_top_hosts now count by_ timeout_sec a).Pairwise
        (fun x y => key y ≤ key x) ∧
      (Aggregator.get_top_hosts now count by_ timeout_sec a).length =
        min count (Aggregator.active_hosts now timeout_sec a).length ∧
      ((Aggregator.active_hosts now timeout_sec a).length ≤ count →
        (Aggregator.get_top_hosts now count by_ timeout_sec a).Perm
          (Aggregator.active_hosts now timeout_sec a)) ∧
      (∃ rest : List HostStat,
        (Aggregator.get_top_hosts now count by_ timeout_sec a ++ rest).Perm
          (Aggregator.active_hosts now timeout_sec a) ∧
        ∀ x ∈ Aggregator.get_top_hosts now count by_ timeout_sec a,
          ∀ y ∈ rest, key y ≤ key x)) ∧
    Aggregator.get_top_hosts 100 2 "total_bytes" 30 c4_agg =
      [c4_host1500, c4_host500] := by
  constructor
  · intro a now count timeout_sec by_ key hby
    have main : ∀ l : List HostStat,
        (∀ h ∈ (sortByDesc key l).take count, h ∈ l) ∧
        ((sortByDesc key l).take count).Pairwise (fun x y => key y ≤ key x) ∧
        ((sortByDesc key l).take count).length = min count l.length ∧
        (l.length ≤ count → ((sortByDesc key l).take count).Perm l) ∧
        (∃ rest : List HostStat,
          ((sortByDesc key l).take count ++ rest).Perm l ∧
          ∀ x ∈ (sortByDesc key l).take count, ∀ y ∈ rest, key y ≤ key x) := by
      intro l
      have hperm := sortByDesc_perm key l
      refine ⟨?_, ?_, ?_, ?_, ?_⟩
      · intro h hh
        exact hperm.mem_iff.mp (List.take_subset count _ hh)
      · exact (sortByDesc_pairwise key l).sublist (List.take_sublist count _)
      · rw [List.length_take, hperm.length_eq]
      · intro hlen
        rw [List.take_of_length_le (by rw [hperm.length_eq]; exact hlen)]
        exact hperm
      · refine ⟨(sortByDesc key l).drop count, ?_, ?_⟩
        · rw [List.take_append_drop]
          exact hperm
        · have hp := sortByDesc_pairwise key l
          rw [← List.take_append_drop count (sortByDesc key l)] at hp
          exact fun x hx y hy => (List.pairwise_append.mp hp).2.2 x hx y hy
    rcases hby with ⟨rfl, rfl⟩ | ⟨rfl, rfl⟩ | ⟨rfl, rfl⟩
    · unfold Aggregator.get_top_hosts
      rw [if_pos rfl]
      exact main _
    · unfold Aggregator.get_top_hosts
      rw [if_neg (by decide), if_pos rfl]
      exact main _
    · unfold Aggregator.get_top_hosts
      rw [if_neg (by decide), if_neg (by decide), if_pos rfl]
      exact main _
  · decide

/-- Witness for C4: the instantiated length clause at a concrete aggregator
and the `upload` selector. -/
theorem get_top_hosts_spec_witness :
    (Aggregator.get_top_hosts 100 2 "upload" 30 c4_agg).length =
      min 2 (Aggregator.active_hosts 100 30 c4_agg).length :=
  (get_top_hosts_spec.1 c4_agg 100 2 30 "upload" (fun h => h.total_bytes_up)
    (Or.inr (Or.inl ⟨rfl, rfl⟩))).2.2.1

/-! ### Claim C5: get_top_hosts with an unrecognized selector -/

/-- First C5 example host (active). -/
def c5_host1 : HostStat :=
  { ip := "h1", hostname := none, total_bytes_up := 10, total_bytes_down := 10,
    packets_up := 0, packets_down := 0, last_seen := 95, flow_count := 1 }

/-- Second C5 example host (active). -/
def c5_host2 : HostStat :=
  { ip := "h2", hostname := none, total_bytes_up := 20, total_bytes_down := 20,
    packets_up := 0, packets_down := 0, last_seen := 96, flow_count := 1 }

/-- C5 example aggregator with two active hosts. -/
def c5_agg : Aggregator :=
  { flows := [], hosts := [("h1", c5_host1), ("h2", c5_host2)] }

/-- C5 counterexample: with two active hosts, an unrecognized selector and
count 1, `get_top_hosts` returns one entry, not the whole two-element active
set — the fallback result IS truncated to `count`, contradicting the claim
that it is untruncated beyond the filter. -/
theorem get_top_hosts_fallback_counterexample :
    (Aggregator.get_top_hosts 100 1 "bogus" 30 c5_agg).length = 1 ∧
    (Aggregator.active_hosts 100 30 c5_agg).length = 2 := by decide

/-- C5 amended: for a selector outside {total_bytes, upload, download},
`get_top_hosts` returns the timeout-filtered active host list unsorted (in
table order) but still truncated to the first `count` entries; no error is
raised. -/
theorem get_top_hosts_fallback :
    ∀ (a : Aggregator) (now : Int) (count : Nat) (timeout_sec : Int) (by_ : String),
      by_ ≠ "total_bytes" → by_ ≠ "upload" → by_ ≠ "download" →
      Aggregator.get_top_hosts now count by_ timeout_sec a =
        (Aggregator.active_hosts now timeout_sec a).take count := by
  intro a now count timeout_sec by_ h1 h2 h3
  unfold Aggregator.get_top_hosts
  rw [if_neg h1, if_neg h2, if_neg h3]

/-- Witness for C5: the amended statement applied at a concrete aggregator and
the unrecognized selector "bogus". -/
theorem get_top_hosts_fallback_witness :
    Aggregator.get_top_hosts 100 1 "bogus" 30 c5_agg =
      (Aggregator.active_hosts 100 30 c5_agg).take 1 :=
  get_top_hosts_fallback c5_agg 100 1 30 "bogus" (by decide) (by decide) (by decide)

/-! ### Claim C8: cleanup_old_flows expiry -/

/-- C8 example flow whose last_seen equals the cleanup call's current time. -/
def c8_flow : FlowStat :=
  { protocol := .TCP, local_ip := "192.168.0.2", local_port := 7000,
    remote_ip := "10.0.0.9", remote_port := 80,
    bytes_up := 1, bytes_down := 1, packets_up := 1, packets_down := 1,
    start_time := 5, last_seen := 5, process_name := none, process_pid := none }

/-- C8 example aggregator holding `c8_flow`. -/
def c8_agg : Aggregator :=
  { flows := [(connection_key c8_flow, c8_flow)], hosts := [] }

/-- C8 counterexample: the expiry comparison is strict, so an entry whose
`last_seen` equals the current time survives `cleanup_old_flows(0)` — the
flow table is NOT empty regardless of prior contents. -/
theorem cleanup_old_flows_counterexample :
    (Aggregator.cleanup_old_flows 5 0 c8_agg).flows ≠ [] := by decide

/-- C8 amended: `cleanup_old_flows(timeout_sec)` removes exactly the entries
whose `last_seen` is strictly before `now - timeout_sec`; consequently
`cleanup_old_flows(0)` empties the table provided every entry was last seen
strictly before the current time (an entry stamped at exactly the current
instant survives). -/
theorem cleanup_old_flows_amended :
    ∀ (now timeout_sec : Int) (a : Aggregator),
      (∀ kf : FlowKey × FlowStat,
        kf ∈ (Aggregator.cleanup_old_flows now timeout_sec a).flows ↔
          kf ∈ a.flows ∧ ¬ kf.2.last_seen < now - timeout_sec) ∧
      ((∀ kf ∈ a.flows, kf.2.last_seen < now) →
        (Aggregator.cleanup_old_flows now 0 a).flows = []) := by
  intro now timeout_sec a
  constructor
  · intro kf
    simp [Aggregator.cleanup_old_flows, List.mem_filter]
  · intro hall
    simp only [Aggregator.cleanup_old_flows]
    rw [List.filter_eq_nil_iff]
    intro kf hkf
    simpa using hall kf hkf

/-- Witness for C8: at a concrete table whose single entry was last seen
strictly before the current time, cleanup with timeout 0 empties the table. -/
theorem cleanup_old_flows_amended_witness :
    (Aggregator.cleanup_old_flows 6 0 c8_agg).flows = [] :=
  (cleanup_old_flows_amended 6 0 c8_agg).2 (by decide)

/-! ### Claim C10: clear resets to the initial state -/

/-- C10: `clear` returns exactly the freshly-constructed state (so any
subsequent operation sequence behaves as on a new Aggregator), and every
query on the cleared state returns an empty result. -/
theorem clear_spec :
    ∀ (a : Aggregator) (now timeout_sec : Int) (count : Nat) (by_ : String)
      (ip : String),
      Aggregator.clear a = Aggregator.init ∧
      Aggregator.get_active_flows now timeout_sec (Aggregator.clear a) = [] ∧
      Aggregator.get_top_hosts now count by_ timeout_sec (Aggregator.clear a) = [] ∧
      Aggregator.get_flow_by_remote ip (Aggregator.clear a) = [] := by
  intro a now timeout_sec count by_ ip
  refine ⟨rfl, rfl, ?_, rfl⟩
  unfold Aggregator.get_top_hosts
  split_ifs <;> simp [Aggregator.active_hosts, Aggregator.clear, sortByDesc]

/-! ### RateCalculator (core/rate_calculator.py) -/

/-- A single sample point in time (`Sample` dataclass).  Timestamps are
rationals, standing for the wall-clock seconds used by `total_seconds()`. -/
structure Sample : Type where
  timestamp : ℚ
  bytes_sent : Int
  bytes_recv : Int
deriving DecidableEq

/-- State of `RateCalculator`: the per-source sample history dict. -/
abbrev RateCalculator : Type := List (String × List Sample)

namespace RateCalculator

/-- `RateCalculator.__init__`: no histories. -/
def init : RateCalculator := []

/-- `RateCalculator.add_sample`: append the sample (evicting the oldest when
two are already stored), then return (0, 0) when fewer than two samples are
held or when the elapsed time between the two held samples is non-positive,
and otherwise the clamped Mbps rates computed from those two samples.
Returns the pair of rates together with the updated state. -/
def add_sample (rc : RateCalculator) (interface_name : String) (timestamp : ℚ)
    (bytes_sent bytes_recv : Int) : (ℚ × ℚ) × RateCalculator :=
  let samples0 := (dictLookup rc interface_name).getD []
  let samples1 := if samples0.length ≥ 2 then samples0.drop 1 else samples0
  let samples2 := samples1 ++ [⟨timestamp, bytes_sent, bytes_recv⟩]
  let rc' := dictSet rc interface_name samples2
  match samples2 with
  | prev_sample :: curr_sample :: _ =>
    let delta_sent : ℚ := ((curr_sample.bytes_sent - prev_sample.bytes_sent : Int) : ℚ)
    let delta_recv : ℚ := ((curr_sample.bytes_recv - prev_sample.bytes_recv : Int) : ℚ)
    let delta_time_sec := curr_sample.timestamp - prev_sample.timestamp
    if delta_time_sec ≤ 0 then ((0, 0), rc')
    else
      ((max 0 (delta_sent * 8 / (delta_time_sec * 1000000)),
        max 0 (delta_recv * 8 / (delta_time_sec * 1000000))), rc')
  | _ => ((0, 0), rc')

/-- `RateCalculator.clear`: drop the history of one source. -/
def clear (rc : RateCalculator) (interface_name : String) : RateCalculator :=
  dictErase rc interface_name

end RateCalculator

/-! ### Claim C3: add_sample rate computation -/

/-- Helper for C3: when exactly one or two samples are already held, the two
most recent samples after the call are the last held sample and the new one,
and the returned rates follow the guarded clamped formula. -/
theorem add_sample_two (rc : RateCalculator) (name : String) (t : ℚ)
    (bs br : Int) (p : Sample)
    (h : (dictLookup rc name).getD [] = [p] ∨
      ∃ q : Sample, (dictLookup rc name).getD [] = [q, p]) :
    (RateCalculator.add_sample rc name t bs br).1 =
      if t - p.timestamp ≤ 0 then (0, 0)
      else (max 0 (((bs - p.bytes_sent : Int) : ℚ) * 8 / ((t - p.timestamp) * 1000000)),
            max 0 (((br - p.bytes_recv : Int) : ℚ) * 8 / ((t - p.timestamp) * 1000000))) := by
  rcases h with h | ⟨q, h⟩ <;>
    · simp only [RateCalculator.add_sample, h]
      norm_num
      split_ifs <;> rfl

/-- C3: `add_sample` returns (0, 0) on the first sample for a source (no prior
history, e.g. after creation or a `clear`) and whenever the elapsed time
between the two most recent samples is non-positive; otherwise it returns
`max 0 (delta_bytes * 8 / (delta_seconds * 1000000))` per direction computed
from the two most recent samples, so a non-positive byte delta yields rate 0
and no division by a zero or negative elapsed time occurs. -/
theorem add_sample_spec :
    ∀ (rc : RateCalculator) (name : String) (t : ℚ) (bs br : Int),
      ((dictLookup rc name).getD [] = [] →
        (RateCalculator.add_sample rc name t bs br).1 = (0, 0)) ∧
      (∀ p : Sample,
        ((dictLookup rc name).getD [] = [p] ∨
          ∃ q : Sample, (dictLookup rc name).getD [] = [q, p]) →
        ((t - p.timestamp ≤ 0 →
            (RateCalculator.add_sample rc name t bs br).1 = (0, 0)) ∧
         (0 < t - p.timestamp →
            (RateCalculator.add_sample rc name t bs br).1 =
              (max 0 (((bs - p.bytes_sent : Int) : ℚ) * 8 / ((t - p.timestamp) * 1000000)),
               max 0 (((br - p.bytes_recv : Int) : ℚ) * 8 / ((t - p.timestamp) * 1000000)))) ∧
         (0 < t - p.timestamp → bs - p.bytes_sent ≤ 0 →
            (RateCalculator.add_sample rc name t bs br).1.1 = 0))) := by
  intro rc name t bs br
  constructor
  · intro h
    simp only [RateCalculator.add_sample, h]
    norm_num
  · intro p hp
    have key := add_sample_two rc name t bs br p hp
    refine ⟨?_, ?_, ?_⟩
    · intro hdt
      rw [key, if_pos hdt]
    · intro hdt
      rw [key, if_neg (not_le.mpr hdt)]
    · intro hdt hds
      rw [key, if_neg (not_le.mpr hdt)]
      have hcast : ((bs - p.bytes_sent : Int) : ℚ) ≤ 0 := by exact_mod_cast hds
      exact max_eq_left (div_nonpos_of_nonpos_of_nonneg (by nlinarith) (by nlinarith))

/-- Witness for C3: concrete first-sample, non-positive-elapsed, positive-rate
and negative-delta cases. -/
theorem add_sample_spec_witness :
    (RateCalculator.add_sample [] "eth0" 0 5 7).1 = (0, 0) ∧
    (RateCalculator.add_sample [("eth0", [⟨3, 0, 0⟩])] "eth0" 3 10 10).1 = (0, 0) ∧
    (RateCalculator.add_sample [("eth0", [⟨0, 0, 0⟩])] "eth0" 2 4 6).1 =
      (32 / 2000000, 48 / 2000000) ∧
    (RateCalculator.add_sample [("eth0", [⟨0, 10, 0⟩])] "eth0" 1 5 0).1.1 = 0 := by
  refine ⟨(add_sample_spec [] "eth0" 0 5 7).1 rfl,
    ((add_sample_spec [("eth0", [⟨3, 0, 0⟩])] "eth0" 3 10 10).2 ⟨3, 0, 0⟩
      (Or.inl rfl)).1 (by norm_num),
    (((add_sample_spec [("eth0", [⟨0, 0, 0⟩])] "eth0" 2 4 6).2 ⟨0, 0, 0⟩
      (Or.inl rfl)).2.1 (by norm_num)).trans (by norm_num),
    ((add_sample_spec [("eth0", [⟨0, 10, 0⟩])] "eth0" 1 5 0).2 ⟨0, 10, 0⟩
      (Or.inl rfl)).2.2 (by norm_num) (by norm_num)⟩

/-! ### ConnectionTracker (core/connection_tracker.py) -/

/-- The tracker's connection key: a protocol string ("TCP"/"UDP") and the
address 4-tuple. -/
abbrev ConnKey : Type := String × String × Nat × String × Nat

/-- State of `ConnectionTracker`: previously stored interface counters and the
running per-connection byte totals. -/
structure ConnectionTracker : Type where
  prev_counters : List (String × (Int × Int))
  connection_bytes : List (ConnKey × (Int × Int))
deriving DecidableEq

namespace ConnectionTracker

/-- `ConnectionTracker.__init__`: both maps start empty. -/
def init : ConnectionTracker := { prev_counters := [], connection_bytes := [] }

/-- One iteration of the per-interface loop in `update_connection_stats`:
when the interface has previously stored counters, add the zero-clamped deltas
to the running totals (an interface's first observation contributes zero);
in every case store the interface's current counters. -/
def interface_delta_step (acc : List (String × (Int × Int)) × Int × Int)
    (c : String × Int × Int) : List (String × (Int × Int)) × Int × Int :=
  match dictLookup acc.1 c.1 with
  | some pc =>
    (dictSet acc.1 c.1 (c.2.1, c.2.2),
     acc.2.1 + max 0 (c.2.1 - pc.1), acc.2.2 + max 0 (c.2.2 - pc.2))
  | none => (dictSet acc.1 c.1 (c.2.1, c.2.2), acc.2.1, acc.2.2)

/-- The whole per-interface loop: the updated stored counters and the two
global deltas for the cycle. -/
def compute_interface_deltas (prev : List (String × (Int × Int)))
    (counters : List (String × Int × Int)) :
    List (String × (Int × Int)) × Int × Int :=
  counters.foldl interface_delta_step (prev, 0, 0)

/-- One iteration of the distribution loop: create a zero-initialized entry for
a new key and add the per-connection shares onto the running totals. -/
def distribute_step (share_up share_down : Int)
    (m : List (ConnKey × (Int × Int))) (k : ConnKey) :
    List (ConnKey × (Int × Int)) :=
  let prev := (dictLookup m k).getD (0, 0)
  dictSet m k (prev.1 + share_up, prev.2 + share_down)

/-- `ConnectionTracker.update_connection_stats`.  `counters` is the result of
reading the platform interface counters (`none` on a read failure) and
`active` the enumerated set of active 5-tuples; both reads happen before any
state change, and an empty key set returns early WITHOUT touching the stored
counters.  Python's `//` on the non-negative deltas is floor division,
embedded as `Int.fdiv`. -/
def update_connection_stats (counters : Option (List (String × Int × Int)))
    (active : List ConnKey) (t : ConnectionTracker) :
    ConnectionTracker × List (ConnKey × (Int × Int)) :=
  match counters with
  | none => (t, [])
  | some cs =>
    if active = [] then (t, [])
    else
      let r := compute_interface_deltas t.prev_counters cs
      let connection_bytes :=
        if r.2.1 > 0 ∨ r.2.2 > 0 then
          if 0 < active.length then
            active.foldl
              (distribute_step (r.2.1.fdiv active.length) (r.2.2.fdiv active.length))
              t.connection_bytes
          else t.connection_bytes
        else t.connection_bytes
      ({ prev_counters := r.1, connection_bytes := connection_bytes },
       connection_bytes)

/-- `ConnectionTracker.get_bytes_for_connection`. -/
def get_bytes_for_connection (t : ConnectionTracker) (proto local_ip : String)
    (local_port : Nat) (remote_ip : String) (remote_port : Nat) : Int × Int :=
  (dictLookup t.connection_bytes
    (proto, local_ip, local_port, remote_ip, remote_port)).getD (0, 0)

/-- The upload contribution of one reported interface relative to a fixed
stored-counter map: zero on first observation, clamped at zero otherwise. -/
def contrib_up (prev : List (String × (Int × Int))) (c : String × Int × Int) : Int :=
  match dictLookup prev c.1 with
  | some pc => max 0 (c.2.1 - pc.1)
  | none => 0

/-- The download contribution of one reported interface. -/
def contrib_down (prev : List (String × (Int × Int))) (c : String × Int × Int) : Int :=
  match dictLookup prev c.1 with
  | some pc => max 0 (c.2.2 - pc.2)
  | none => 0

end ConnectionTracker

/-! ### Claims C6 and C7: connection tracker lemmas -/

theorem interface_deltas_lookup_not_mem (cs : List (String × Int × Int)) :
    ∀ (pm : List (String × (Int × Int))) (u d : Int) (x : String),
      x ∉ cs.map (fun c => c.1) →
      dictLookup (cs.foldl ConnectionTracker.interface_delta_step (pm, u, d)).1 x =
        dictLookup pm x := by
  induction cs with
  | nil => intro pm u d x _; rfl
  | cons c cs ih =>
    intro pm u d x hx
    obtain ⟨nm, s, r⟩ := c
    simp only [List.map_cons, List.mem_cons, not_or] at hx
    obtain ⟨hx1, hx2⟩ := hx
    cases hl : dictLookup pm nm <;>
      simp only [List.foldl_cons, ConnectionTracker.interface_delta_step, hl] <;>
      rw [ih _ _ _ x hx2, dictLookup_dictSet_ne _ _ _ _ hx1]

theorem contrib_up_dictSet_ne (pm : List (String × (Int × Int))) (nm : String)
    (v : Int × Int) (c : String × Int × Int) (h : c.1 ≠ nm) :
    ConnectionTracker.contrib_up (dictSet pm nm v) c =
      ConnectionTracker.contrib_up pm c := by
  simp only [ConnectionTracker.contrib_up, dictLookup_dictSet_ne _ _ _ _ h]

theorem contrib_down_dictSet_ne (pm : List (String × (Int × Int))) (nm : String)
    (v : Int × Int) (c : String × Int × Int) (h : c.1 ≠ nm) :
    ConnectionTracker.contrib_down (dictSet pm nm v) c =
      ConnectionTracker.contrib_down pm c := by
  simp only [ConnectionTracker.contrib_down, dictLookup_dictSet_ne _ _ _ _ h]

theorem interface_deltas_aux (cs : List (String × Int × Int)) :
    ∀ (pm : List (String × (Int × Int))) (u d : Int),
      (cs.map (fun c => c.1)).Nodup →
      (cs.foldl ConnectionTracker.interface_delta_step (pm, u, d)).2.1 =
        u + (cs.map (ConnectionTracker.contrib_up pm)).sum ∧
      (cs.foldl ConnectionTracker.interface_delta_step (pm, u, d)).2.2 =
        d + (cs.map (ConnectionTracker.contrib_down pm)).sum ∧
      (∀ (nm : String) (s r : Int), (nm, s, r) ∈ cs →
        dictLookup (cs.foldl ConnectionTracker.interface_delta_step (pm, u, d)).1 nm =
          some (s, r)) := by
  induction cs with
  | nil =>
    intro pm u d _
    refine ⟨by simp, by simp, ?_⟩
    intro nm s r h
    simp at h
  | cons c cs ih =>
    intro pm u d hnd
    obtain ⟨nm, s, r⟩ := c
    simp only [List.map_cons, List.nodup_cons] at hnd
    obtain ⟨hnm, hnd'⟩ := hnd
    have hmapu : cs.map (ConnectionTracker.contrib_up (dictSet pm nm (s, r))) =
        cs.map (ConnectionTracker.contrib_up pm) := by
      apply List.map_congr_left
      intro c' hc'
      exact contrib_up_dictSet_ne pm nm (s, r) c'
        (fun he => hnm (he ▸ List.mem_map_of_mem (fun c => c.1) hc'))
    have hmapd : cs.map (ConnectionTracker.contrib_down (dictSet pm nm (s, r))) =
        cs.map (ConnectionTracker.contrib_down pm) := by
      apply List.map_congr_left
      intro c' hc'
      exact contrib_down_dictSet_ne pm nm (s, r) c'
        (fun he => hnm (he ▸ List.mem_map_of_mem (fun c => c.1) hc'))
    cases hl : dictLookup pm nm with
    | some pc =>
      have hrec := ih (dictSet pm nm (s, r)) (u + max 0 (s - pc.1)) (d + max 0 (r - pc.2)) hnd'
      refine ⟨?_, ?_, ?_⟩
      · simp only [List.foldl_cons, ConnectionTracker.interface_delta_step, hl]
        rw [hrec.1, hmapu]
        simp only [List.map_cons, List.sum_cons, ConnectionTracker.contrib_up, hl]
        ring
      · simp only [List.foldl_cons, ConnectionTracker.interface_delta_step, hl]
        rw [hrec.2.1, hmapd]
        simp only [List.map_cons, List.sum_cons, ConnectionTracker.contrib_down, hl]
        ring
      · intro nm' s' r' hmem
        rcases List.mem_cons.mp hmem with he | hmem'
        · simp only [Prod.mk.injEq] at he
          obtain ⟨h1, h2, h3⟩ := he
          subst h1; subst h2; subst h3
          simp only [List.foldl_cons, ConnectionTracker.interface_delta_step, hl]
          rw [interface_deltas_lookup_not_mem cs _ _ _ _ hnm,
            dictLookup_dictSet_self]
        · simp only [List.foldl_cons, ConnectionTracker.interface_delta_step, hl]
          exact hrec.2.2 nm' s' r' hmem'
    | none =>
      have hrec := ih (dictSet pm nm (s, r)) u d hnd'
      refine ⟨?_, ?_, ?_⟩
      · simp only [List.foldl_cons, ConnectionTracker.interface_delta_step, hl]
        rw [hrec.1, hmapu]
        simp only [List.map_cons, List.sum_cons, ConnectionTracker.contrib_up, hl]
        ring
      · simp only [List.foldl_cons, ConnectionTracker.interface_delta_step, hl]
        rw [hrec.2.1, hmapd]
        simp only [List.map_cons, List.sum_cons, ConnectionTracker.contrib_down, hl]
        ring
      · intro nm' s' r' hmem
        rcases List.mem_cons.mp hmem with he | hmem'
        · simp only [Prod.mk.injEq] at he
          obtain ⟨h1, h2, h3⟩ := he
          subst h1; subst h2; subst h3
          simp only [List.foldl_cons, ConnectionTracker.interface_delta_step, hl]
          rw [interface_deltas_lookup_not_mem cs _ _ _ _ hnm,
            dictLookup_dictSet_self]
        · simp only [List.foldl_cons, ConnectionTracker.interface_delta_step, hl]
          exact hrec.2.2 nm' s' r' hmem'

theorem foldl_distribute_not_mem (su sd : Int) (l : List ConnKey) :
    ∀ (m : List (ConnKey × (Int × Int))) (k : ConnKey), k ∉ l →
      dictLookup (l.foldl (ConnectionTracker.distribute_step su sd) m) k =
        dictLookup m k := by
  induction l with
  | nil => intro m k _; rfl
  | cons h l ih =>
    intro m k hk
    simp only [List.mem_cons, not_or] at hk
    simp only [List.foldl_cons]
    rw [ih _ _ hk.2]
    simp only [ConnectionTracker.distribute_step]
    exact dictLookup_dictSet_ne _ _ _ _ hk.1

theorem foldl_distribute_mem (su sd : Int) (l : List ConnKey) :
    ∀ (m : List (ConnKey × (Int × Int))) (k : ConnKey), l.Nodup → k ∈ l →
      dictLookup (l.foldl (ConnectionTracker.distribute_step su sd) m) k =
        some (((dictLookup m k).getD (0, 0)).1 + su,
              ((dictLookup m k).getD (0, 0)).2 + sd) := by
  induction l with
  | nil => intro m k _ hk; simp at hk
  | cons h l ih =>
    intro m k hnd hk
    simp only [List.nodup_cons] at hnd
    rcases List.mem_cons.mp hk with rfl | hk'
    · simp only [List.foldl_cons]
      rw [foldl_distribute_not_mem su sd l _ k hnd.1]
      simp only [ConnectionTracker.distribute_step]
      rw [dictLookup_dictSet_self]
    · have hne : k ≠ h := fun he => hnd.1 (he ▸ hk')
      simp only [List.foldl_cons]
      rw [ih _ _ hnd.2 hk']
      simp only [ConnectionTracker.distribute_step]
      rw [dictLookup_dictSet_ne _ _ _ _ hne]

/-! ### Claim C6: counter replacement and global deltas -/

/-- C6 counterexample: a call that successfully reads a non-empty interface
counter list but observes an empty active connection set returns early and
does NOT replace the stored previous counters. -/
theorem update_connection_stats_counterexample :
    ¬ dictLookup (ConnectionTracker.update_connection_stats
        (some [("eth0", 100, 200)]) [] ConnectionTracker.init).1.prev_counters
        "eth0" = some (100, 200) := by decide

/-- C6 amended: on every call that successfully reads the interface counters
AND observes a non-empty active connection set, the stored previous counters of
every reported interface are replaced by that interface's current counters, and
the global upload/download deltas of the cycle are the sums over all reported
interfaces of the per-interface contributions (zero on an interface's first
observation, clamped at zero when a counter decreases). -/
theorem update_connection_stats_deltas :
    ∀ (t : ConnectionTracker) (cs : List (String × Int × Int))
      (active : List ConnKey),
      active ≠ [] → (cs.map (fun c => c.1)).Nodup →
      (ConnectionTracker.update_connection_stats (some cs) active t).1.prev_counters =
        (ConnectionTracker.compute_interface_deltas t.prev_counters cs).1 ∧
      (∀ (nm : String) (s r : Int), (nm, s, r) ∈ cs →
        dictLookup (ConnectionTracker.update_connection_stats
          (some cs) active t).1.prev_counters nm = some (s, r)) ∧
      (ConnectionTracker.compute_interface_deltas t.prev_counters cs).2.1 =
        (cs.map (ConnectionTracker.contrib_up t.prev_counters)).sum ∧
      (ConnectionTracker.compute_interface_deltas t.prev_counters cs).2.2 =
        (cs.map (ConnectionTracker.contrib_down t.prev_counters)).sum := by
  intro t cs active hact hnd
  have haux := interface_deltas_aux cs t.prev_counters 0 0 hnd
  have hprev : (ConnectionTracker.update_connection_stats
      (some cs) active t).1.prev_counters =
      (ConnectionTracker.compute_interface_deltas t.prev_counters cs).1 := by
    simp only [ConnectionTracker.update_connection_stats, if_neg hact]
  refine ⟨hprev, ?_, ?_, ?_⟩
  · intro nm s r hmem
    rw [hprev]
    exact haux.2.2 nm s r hmem
  · simpa [ConnectionTracker.compute_interface_deltas] using haux.1
  · simpa [ConnectionTracker.compute_interface_deltas] using haux.2.1

/-- C6 example tracker: one previously seen interface with counters (5, 5). -/
def c6_tracker : ConnectionTracker :=
  { prev_counters := [("eth0", (5, 5))], connection_bytes := [] }

/-- C6 example counter reading: eth0 advanced to (15, 25), wlan0 first seen. -/
def c6_cs : List (String × Int × Int) := [("eth0", 15, 25), ("wlan0", 7, 9)]

/-- C6 example non-empty active key set. -/
def c6_active : List ConnKey := [("TCP", "1.1.1.1", 1, "2.2.2.2", 2)]

/-- Witness for C6: with a non-empty active set the stored counters of a
reported interface really are replaced by its current counters. -/
theorem update_connection_stats_deltas_witness :
    dictLookup (ConnectionTracker.update_connection_stats
      (some c6_cs) c6_active c6_tracker).1.prev_counters "eth0" = some (15, 25) :=
  (update_connection_stats_deltas c6_tracker c6_cs c6_active (by decide)
    (by decide)).2.1 "eth0" 15 25 (by decide)

/-! ### Claim C7: even distribution of the global deltas -/

/-- C7: when the active key set is non-empty and duplicate-free and both global
deltas of the cycle are positive, every active key's running totals grow by
exactly the floor-divided per-connection shares (a previously untracked key
starts from the zero-initialized entry); the residue below the connection
count appears in no state component, i.e. it is dropped. -/
theorem distribute_shares :
    ∀ (t : ConnectionTracker) (cs : List (String × Int × Int))
      (active : List ConnKey) (k : ConnKey),
      active.Nodup → k ∈ active →
      0 < (ConnectionTracker.compute_interface_deltas t.prev_counters cs).2.1 →
      0 < (ConnectionTracker.compute_interface_deltas t.prev_counters cs).2.2 →
      dictLookup (ConnectionTracker.update_connection_stats
          (some cs) active t).1.connection_bytes k =
        some
          (((dictLookup t.connection_bytes k).getD (0, 0)).1 +
            (ConnectionTracker.compute_interface_deltas t.prev_counters cs).2.1.fdiv
              active.length,
           ((dictLookup t.connection_bytes k).getD (0, 0)).2 +
            (ConnectionTracker.compute_interface_deltas t.prev_counters cs).2.2.fdiv
              active.length) := by
  intro t cs active k hnd hk hdu hdd
  have hact : active ≠ [] := List.ne_nil_of_mem hk
  simp only [ConnectionTracker.update_connection_stats, if_neg hact]
  rw [if_pos (Or.inl hdu), if_pos (List.length_pos.mpr hact)]
  exact foldl_distribute_mem _ _ active t.connection_bytes k hnd hk

/-- C7 example first active key. -/
def c7_k1 : ConnKey := ("TCP", "1.1.1.1", 1, "2.2.2.2", 2)

/-- C7 example second active key (previously untracked). -/
def c7_k2 : ConnKey := ("UDP", "1.1.1.1", 3, "3.3.3.3", 4)

/-- C7 example tracker: eth0 seen at (0, 0), k1 already holds (5, 7) bytes. -/
def c7_tracker : ConnectionTracker :=
  { prev_counters := [("eth0", (0, 0))], connection_bytes := [(c7_k1, (5, 7))] }

/-- C7 example counter reading: eth0 advances by (10, 20). -/
def c7_cs : List (String × Int × Int) := [("eth0", 10, 20)]

/-- C7 example active set of two keys. -/
def c7_active : List ConnKey := [c7_k1, c7_k2]

/-- Witness for C7: with deltas (10, 20) over 2 connections, k1's totals grow
from (5, 7) by (5, 10) to (10, 17). -/
theorem distribute_shares_witness :
    dictLookup (ConnectionTracker.update_connection_stats
      (some c7_cs) c7_active c7_tracker).1.connection_bytes c7_k1 =
      some (10, 17) :=
  (distribute_shares c7_tracker c7_cs c7_active c7_k1 (by decide) (by decide)
    (by decide) (by decide)).trans (by decide)

/-! ### NetworkSampler (core/network_sampler.py) -/

/-- A raw psutil connection record as consumed by `get_active_connections`:
optional local/remote endpoints, status string, socket type number and
optional owning pid. -/
structure RawConn : Type where
  laddr : Option (String × Nat)
  raddr : Option (String × Nat)
  status : String
  typ : Nat
  pid : Option Nat
deriving DecidableEq

namespace NetworkSampler

/-- The per-connection body of the loop in `get_active_connections`: skip a
record missing an endpoint, not ESTABLISHED, or of a socket type other than
1 (TCP) or 2 (UDP); look up the accumulated bytes in the tracker under the
protocol's string value; resolve the process name best-effort (`proc_name`
returns `none` on lookup failure or permission denial, and Python's
`if conn.pid:` treats pid 0 like None); and emit a FlowStat with zero packet
counts whose `start_time` and `last_seen` are both the current sampling time. -/
def conn_to_flow (now : Int) (t : ConnectionTracker)
    (proc_name : Nat → Option String) (conn : RawConn) : Option FlowStat :=
  match conn.laddr, conn.raddr with
  | some laddr, some raddr =>
    if conn.status = "ESTABLISHED" then
      match (if conn.typ = 1 then some Protocol.TCP
             else if conn.typ = 2 then some Protocol.UDP else none) with
      | some protocol =>
        let bytes := ConnectionTracker.get_bytes_for_connection t
          (protocol_value protocol) laddr.1 laddr.2 raddr.1 raddr.2
        let pinfo : Option String × Option Nat :=
          match conn.pid with
          | some p =>
            if p ≠ 0 then
              match proc_name p with
              | some nm => (some nm, some p)
              | none => (none, none)
            else (none, none)
          | none => (none, none)
        some { protocol := protocol, local_ip := laddr.1, local_port := laddr.2,
               remote_ip := raddr.1, remote_port := raddr.2,
               bytes_up := bytes.1, bytes_down := bytes.2,
               packets_up := 0, packets_down := 0,
               start_time := now, last_seen := now,
               process_name := pinfo.1, process_pid := pinfo.2 }
      | none => none
    else none
  | _, _ => none

/-- `NetworkSampler.get_active_connections`: first update the connection
tracker, then emit one FlowStat per surviving raw connection; an enumeration
failure (`conns = none`) yields an empty sequence. -/
def get_active_connections (now : Int)
    (counters : Option (List (String × Int × Int)))
    (tracker_active : List ConnKey) (conns : Option (List RawConn))
    (proc_name : Nat → Option String) (t : ConnectionTracker) :
    List FlowStat × ConnectionTracker :=
  let t' := (ConnectionTracker.update_connection_stats counters tracker_active t).1
  match conns with
  | none => ([], t')
  | some cs => (cs.filterMap (conn_to_flow now t' proc_name), t')

end NetworkSampler

/-! ### Claim C9: emitted flows are TCP/UDP and stamped with "now" -/

theorem conn_to_flow_shape (now : Int) (t' : ConnectionTracker)
    (pn : Nat → Option String) (c : RawConn) (fl : FlowStat)
    (h : NetworkSampler.conn_to_flow now t' pn c = some fl) :
    (fl.protocol = Protocol.TCP ∨ fl.protocol = Protocol.UDP) ∧
    fl.start_time = now ∧ fl.last_seen = now := by
  unfold NetworkSampler.conn_to_flow at h
  split at h
  · split at h
    · split at h
      · injection h with h
        subst h
        refine ⟨?_, rfl, rfl⟩
        rename_i heq
        split_ifs at heq with h1 h2
        · injection heq with heq
          exact Or.inl heq.symm
        · injection heq with heq
          exact Or.inr heq.symm
      · exact absurd h (by simp)
    · exact absurd h (by simp)
  · exact absurd h (by simp)

/-- C9: every FlowStat emitted by `get_active_connections` has protocol TCP or
UDP, and both its `start_time` and `last_seen` equal the current sampling time
of the call (start_time is re-stamped, not preserved); moreover a connection
whose socket type is neither 1 nor 2 produces no FlowStat at all. -/
theorem get_active_connections_spec :
    ∀ (now : Int) (counters : Option (List (String × Int × Int)))
      (tracker_active : List ConnKey) (conns : Option (List RawConn))
      (proc_name : Nat → Option String) (t : ConnectionTracker),
      (∀ fl ∈ (NetworkSampler.get_active_connections now counters tracker_active
          conns proc_name t).1,
        (fl.protocol = Protocol.TCP ∨ fl.protocol = Protocol.UDP) ∧
        fl.start_time = now ∧ fl.last_seen = now) ∧
      (∀ (c : RawConn) (t' : ConnectionTracker), c.typ ≠ 1 → c.typ ≠ 2 →
        NetworkSampler.conn_to_flow now t' proc_name c = none) := by
  intro now counters tracker_active conns proc_name t
  constructor
  · intro fl hfl
    cases conns with
    | none => simp [NetworkSampler.get_active_connections] at hfl
    | some cs =>
      simp only [NetworkSampler.get_active_connections] at hfl
      obtain ⟨c, _, hcf⟩ := List.mem_filterMap.mp hfl
      exact conn_to_flow_shape now _ proc_name c fl hcf
  · intro c t' h1 h2
    unfold NetworkSampler.conn_to_flow
    cases c.laddr with
    | none => rfl
    | some la =>
      cases c.raddr with
      | none => rfl
      | some ra =>
        rw [if_neg h1, if_neg h2]
        simp

/-- C9 example raw connection: an established UDP socket owned by pid 42. -/
def c9_conn : RawConn :=
  { laddr := some ("10.0.0.1", 1234), raddr := some ("8.8.8.8", 53),
    status := "ESTABLISHED", typ := 2, pid := some 42 }

/-- C9 example process-name resolver. -/
def c9_proc : Nat → Option String :=
  fun p => if p = 42 then some "dns" else none

/-- The FlowStat that `get_active_connections` emits for `c9_conn` at time 7
on a fresh tracker. -/
def c9_flow : FlowStat :=
  { protocol := .UDP, local_ip := "10.0.0.1", local_port := 1234,
    remote_ip := "8.8.8.8", remote_port := 53,
    bytes_up := 0, bytes_down := 0, packets_up := 0, packets_down := 0,
    start_time := 7, last_seen := 7,
    process_name := some "dns", process_pid := some 42 }

/-- Witness for C9: the emitted flow of a concrete sampling call is UDP and
carries the sampling time in both timestamps. -/
theorem get_active_connections_spec_witness :
    (c9_flow.protocol = Protocol.TCP ∨ c9_flow.protocol = Protocol.UDP) ∧
    c9_flow.start_time = 7 ∧ c9_flow.last_seen = 7 :=
  (get_active_connections_spec 7 none [] (some [c9_conn]) c9_proc
    ConnectionTracker.init).1 c9_flow (by decide)
